import Mathlib

/-!
Verification of the pymt animation engine (`pymt/ui/animation.py`).

The development shallowly embeds the parts of the module that the
specification's claims are about:

* the recursive interpolation routine
  `AnimationBase._calculate_attribute_value` over Python values
  (ints, floats, lists, tuples, dicts);
* the spec constructor `Animation.__init__` and the per-target instance
  constructor `AnimationBase.__init__` (duration handling, easing-name
  lookup via `getattr(AnimationAlpha, name)`);
* the leaf state machine (`AnimationBase.start` / `stop` / `_next_frame`,
  `AbsoluteAnimationBase` / `DeltaAnimationBase` snapshotting and `reset`)
  driven by the external clock's `schedule_interval` service;
* the `SequenceAnimation` and `ParallelAnimation` combinators and the
  `Repeat` controller.

Stateful code is embedded as explicit state passing over "world" records
holding the widget's scalar properties, the per-target instance objects,
the clock's registration count, and an ordered log of every dispatched
event and widget notification.  Machine floats are modelled as exact
rationals; the claims under study only exercise arithmetic at progress
values where float evaluation is exact.  Fallible constructors are
embedded with `Except`.
-/

namespace Pymt

/-! ## Python values and `_calculate_attribute_value`

The engine interpolates property values that are numbers, lists, tuples or
dicts (`animation.py`, lines 125-151).  `PyVal` mirrors that value space;
dicts are association lists keyed by strings. -/

/-- Python property values handled by `_calculate_attribute_value`:
numeric scalars (int / float), lists, tuples and string-keyed dicts. -/
inductive PyVal where
  | int : Int → PyVal
  | float : Rat → PyVal
  | list : List PyVal → PyVal
  | tuple : List PyVal → PyVal
  | dict : List (String × PyVal) → PyVal

/-- Kind tag of a Python value (its `type(...)`). -/
inductive PyKind where
  | kint | kfloat | klist | ktuple | kdict
deriving DecidableEq, Repr

/-- Return the kind (Python type) of a value. -/
def PyVal.kindOf : PyVal → PyKind
  | .int _ => .kint
  | .float _ => .kfloat
  | .list _ => .klist
  | .tuple _ => .ktuple
  | .dict _ => .kdict

/-- Python truncation toward zero, as performed by `int(x)` on a float. -/
def ratTruncToZero (q : Rat) : Int :=
  if 0 ≤ q then ⌊q⌋ else ⌈q⌉

/-- Embedding of the Python cast `type(proto)(v)` for the value kinds the
interpolation produces: `int()` of a float truncates toward zero,
`float()` of an int promotes, `list()` / `tuple()` of a sequence rebuilds
the container, `dict()` of a dict copies it.  Casts that would raise a
`TypeError` in Python are `none`. -/
def castTo : PyVal → PyVal → Option PyVal
  | .int _, .int n => some (.int n)
  | .int _, .float q => some (.int (ratTruncToZero q))
  | .float _, .int n => some (.float (n : Rat))
  | .float _, .float q => some (.float q)
  | .list _, .list vs => some (.list vs)
  | .list _, .tuple vs => some (.list vs)
  | .tuple _, .list vs => some (.tuple vs)
  | .tuple _, .tuple vs => some (.tuple vs)
  | .dict _, .dict kvs => some (.dict kvs)
  | _, _ => none

/-- Numeric payload of a scalar value, used by the scalar branch
`vstart * (1. - t) + vend * t`; `none` when the value is not numeric
(Python would raise a `TypeError` in the arithmetic). -/
def PyVal.toRat? : PyVal → Option Rat
  | .int n => some (n : Rat)
  | .float q => some q
  | _ => none

/-- Dict lookup `vend[item]`; `none` models the `KeyError` / `TypeError`
raised when the key is missing or the value is not a dict. -/
def PyVal.dictGet? (v : PyVal) (k : String) : Option PyVal :=
  match v with
  | .dict kvs => (kvs.find? (fun kv => kv.1 = k)).map Prod.snd
  | _ => none

mutual

/-- Embedding of `AnimationBase._calculate_attribute_value(vstart, vend, t)`
(`animation.py`, lines 125-151).  Tuples and lists are handled first and
rebuilt *as a Python list* (`value = []` followed by `append`), with every
element cast back to the kind of the corresponding start element via
`type(vstart[x])(result)`.  Dicts are rebuilt key by key the same way.
Otherwise the scalar branch computes
`type(vstart)(vstart * (1. - t) + vend * t)`.  Failed assertions and
Python type errors are `none`. -/
def calcAttr : PyVal → PyVal → Rat → Option PyVal
  | .list xs, .list ys, t => (calcElems xs ys t).map PyVal.list
  | .list xs, .tuple ys, t => (calcElems xs ys t).map PyVal.list
  | .tuple xs, .list ys, t => (calcElems xs ys t).map PyVal.list
  | .tuple xs, .tuple ys, t => (calcElems xs ys t).map PyVal.list
  | .list _, _, _ => none
  | .tuple _, _, _ => none
  | .dict kvs, vend, t => (calcPairs kvs vend t).map PyVal.dict
  | vstart, vend, t => do
      let a ← vstart.toRat?
      let b ← vend.toRat?
      castTo vstart (.float (a * (1 - t) + b * t))

/-- Elementwise loop of the tuple/list branch: each recursive result is
cast back to the kind of the start element (`type(vstart[x])(result)`).
A length mismatch fails the source's `assert(len(vstart) == len(vend))`. -/
def calcElems : List PyVal → List PyVal → Rat → Option (List PyVal)
  | [], [], _ => some []
  | x :: xs, y :: ys, t => do
      let r ← calcAttr x y t
      let c ← castTo x r
      let rest ← calcElems xs ys t
      pure (c :: rest)
  | _, _, _ => none

/-- Keywise loop of the dict branch: for each key of the start dict the
end dict must hold the key, and the recursive result is cast back via
`type(vstart[item])(result)`. -/
def calcPairs : List (String × PyVal) → PyVal → Rat →
    Option (List (String × PyVal))
  | [], _, _ => some []
  | (k, v) :: kvs, vend, t => do
      let w ← vend.dictGet? k
      let r ← calcAttr v w t
      let c ← castTo v r
      let rest ← calcPairs kvs vend t
      pure ((k, c) :: rest)

end

/-- Helper: a successful Python cast returns a value of the prototype's kind. -/
theorem castTo_kind {p v c : PyVal} (h : castTo p v = some c) :
    c.kindOf = p.kindOf := by
  cases p <;> cases v <;> simp [castTo] at h <;> subst h <;> rfl

/-- Helper: the elementwise loop of the tuple/list branch returns one value
per start element, of the start element's kind. -/
theorem calcElems_kinds {xs ys : List PyVal} {t : Rat} {rs : List PyVal}
    (h : calcElems xs ys t = some rs) :
    List.Forall₂ (fun c x => c.kindOf = x.kindOf) rs xs := by
  induction xs generalizing ys rs with
  | nil =>
    cases ys with
    | nil => simp [calcElems] at h; simp [← h]
    | cons y ys => simp [calcElems] at h
  | cons x xs ih =>
    cases ys with
    | nil => simp [calcElems] at h
    | cons y ys =>
      simp only [calcElems, Option.bind_eq_bind, Option.bind_eq_some,
        Option.pure_def, Option.some.injEq] at h
      obtain ⟨r, _, c, hc, rest, hrest, hcons⟩ := h
      subst hcons
      exact List.Forall₂.cons (castTo_kind hc) (ih hrest)

/-- C10: whenever the start value of an animated property is a tuple and a
tick's interpolation succeeds, the value handed to the target is a Python
*list* (never a tuple), holding one element per start element, each cast
back to the kind of the corresponding original element. -/
theorem tuple_start_interpolates_to_list (xs ys : List PyVal) (t : Rat)
    (r : PyVal) (h : calcAttr (.tuple xs) (.tuple ys) t = some r) :
    ∃ vs, r = .list vs ∧
      List.Forall₂ (fun c x => PyVal.kindOf c = PyVal.kindOf x) vs xs := by
  simp only [calcAttr, Option.map_eq_some'] at h
  obtain ⟨rs, hrs, hr⟩ := h
  exact ⟨rs, hr.symm, calcElems_kinds hrs⟩

/-- C10 witness: interpolating the tuple start `(0, 0.0, (1,))` toward
`(10, 20.0, (3,))` at `t = 1/2` succeeds and the theorem applies to it. -/
theorem tuple_start_interpolates_to_list_witness :
    ∃ vs, PyVal.list [.int 5, .float 10, .tuple [.int 2]] = .list vs ∧
      List.Forall₂ (fun c x => PyVal.kindOf c = PyVal.kindOf x) vs
        [.int 0, .float 0, .tuple [.int 1]] :=
  tuple_start_interpolates_to_list
    [.int 0, .float 0, .tuple [.int 1]]
    [.int 10, .float 20, .tuple [.int 3]] (1/2)
    (.list [.int 5, .float 10, .tuple [.int 2]])
    (by norm_num [calcAttr, calcElems, castTo, PyVal.toRat?, ratTruncToZero])

/-! ## Spec construction and per-target instance construction

`Animation.__init__` (lines 340-354) stores keyword parameters on the spec
after filling defaults; it performs no validation whatsoever.  The easing
function is looked up only inside `AnimationBase.__init__` (lines 80-101)
via `getattr(AnimationAlpha, name)`, and `AnimationBase` objects are built
inside `Animation.set_widget` (lines 379-394), i.e. at attach time. -/

/-- Attribute names of the `AnimationAlpha` class (lines 647-905), i.e. the
names `getattr(AnimationAlpha, name)` resolves without raising
`AttributeError`. -/
def AnimationAlpha.names : List String :=
  ["linear",
   "ease_in_quad", "ease_out_quad", "ease_in_out_quad",
   "ease_in_cubic", "ease_out_cubic", "ease_in_out_cubic",
   "ease_in_quart", "ease_out_quart", "ease_in_out_quart",
   "ease_in_quint", "ease_out_quint", "ease_in_out_quint",
   "ease_in_sine", "ease_out_sine", "ease_in_out_sine",
   "ease_in_expo", "ease_out_expo", "ease_in_out_expo",
   "ease_in_circ", "ease_out_circ", "ease_in_out_circ",
   "ease_in_elastic", "ease_out_elastic", "ease_in_out_elastic",
   "ease_in_back", "ease_out_back", "ease_in_out_back",
   "_ease_out_bounce_internal", "_ease_in_bounce_internal",
   "ease_in_bounce", "ease_out_bounce", "ease_in_out_bounce"]

/-- Keyword arguments accepted by `Animation(...)` that the claims under
study exercise (animated properties are carried separately by the
scenario worlds below). -/
structure AnimKwargs where
  duration : Option Rat := none
  d : Option Rat := none
  type : Option String := none
  f : Option String := none
  alpha_function : Option String := none
  generate_event : Option Bool := none

/-- Exceptions the embedded constructors can raise.  The source code of
`animation.py` defines no error classes of its own; the only exception
reachable from the constructors is the `AttributeError` raised by
`getattr(AnimationAlpha, name)` on an unknown easing name. -/
inductive PyErr where
  | attributeError
deriving DecidableEq

/-- State stored on an `Animation` spec by `Animation.__init__`. -/
structure AnimationSpec where
  duration : Rat
  params : AnimKwargs
  animation_type : String

/-- Embedding of `Animation.__init__(**kwargs)` (lines 340-354): defaults
`duration`, `d` and `type` are filled in, `self.duration` is taken from
the truthy `d` (falling back to `duration`), and the kwargs are stored as
`self.params`.  No raise statement is reachable, so the result is always
`ok`. -/
def Animation.init (kwargs : AnimKwargs) : Except PyErr AnimationSpec :=
  let kw : AnimKwargs :=
    { kwargs with
      duration := some (kwargs.duration.getD 1)
      d := some (kwargs.d.getD 1)
      type := some (kwargs.type.getD "absolute") }
  let dur := if kw.d.getD 1 ≠ 0 then kw.d.getD 1 else kw.duration.getD 1
  .ok { duration := dur, params := kw,
        animation_type := kw.type.getD "absolute" }

/-- Parameters an `AnimationBase.__init__` call (lines 80-101) extracts
from the spec's params: the float duration, the resolved easing name and
the `generate_event` flag. -/
structure AnimObjParams where
  duration : Rat
  alpha_name : String
  generate_event : Bool

/-- Embedding of `AnimationBase.__init__` (lines 80-101): the easing
function is `getattr(AnimationAlpha, params['f'])`, else
`getattr(AnimationAlpha, params['alpha_function'])`, else
`AnimationAlpha.linear`; an unknown name raises `AttributeError` here,
i.e. when the per-target instance is constructed. -/
def AnimationBase.initE (params : AnimKwargs) : Except PyErr AnimObjParams :=
  let fname :=
    match params.f with
    | some n => n
    | none =>
      match params.alpha_function with
      | some n => n
      | none => "linear"
  if fname ∈ AnimationAlpha.names then
    .ok { duration := params.duration.getD 1
          alpha_name := fname
          generate_event := params.generate_event.getD true }
  else
    .error .attributeError

/-- Embedding of `Animation.set_widget` (lines 379-394): when the widget
already has an instance the call returns `False`; otherwise an
`AnimationBase` object is constructed from `self.params` (which is where
an unknown easing name raises) and the call returns `True`. -/
def Animation.setWidgetE (s : AnimationSpec) (alreadyAttached : Bool) :
    Except PyErr Bool :=
  if alreadyAttached then .ok false
  else (AnimationBase.initE s.params).map (fun _ => true)

/-- C6 counterexample: constructing `Animation(duration=0)` does *not*
fail: the constructor returns normally (there is no duration validation
and no `InvalidDurationError` anywhere in the code), and even attaching
the spec succeeds. -/
theorem zero_duration_constructs_ok :
    (Animation.init { duration := some 0 }).isOk = true ∧
    ((Animation.init { duration := some 0 }).bind
      (fun s => Animation.setWidgetE s false)).isOk = true := by
  constructor <;> rfl

/-- C6 amended: construction with a non-positive duration is accepted
without any error; the code performs no duration validation at spec
construction. -/
theorem nonpositive_duration_accepted (dur : Rat) (_hd : dur ≤ 0) :
    (Animation.init { duration := some dur }).isOk = true := rfl

/-- C6 amended witness: the amended theorem applied at duration `-1`. -/
theorem nonpositive_duration_accepted_witness :
    (-1 : Rat) ≤ 0 ∧
    (Animation.init { duration := some (-1) }).isOk = true :=
  ⟨by norm_num, nonpositive_duration_accepted (-1) (by norm_num)⟩

/-- C7 counterexample: constructing an `Animation` spec whose easing name
`"warp"` is not provided by `AnimationAlpha` does *not* fail at spec
construction: `Animation.__init__` never looks the name up. -/
theorem unknown_easing_constructs_ok :
    (Animation.init { f := some "warp" }).isOk = true := rfl

/-- C7 amended: an easing name not provided by `AnimationAlpha` leaves
spec construction untouched and instead raises `AttributeError` at attach
time, when `Animation.set_widget` constructs the per-target
`AnimationBase` instance (hence before any tick can run). -/
theorem unknown_easing_fails_at_attach (n : String)
    (h : n ∉ AnimationAlpha.names) :
    ∃ s, Animation.init { f := some n } = .ok s ∧
      Animation.setWidgetE s false = .error .attributeError := by
  refine ⟨_, rfl, ?_⟩
  simp [Animation.setWidgetE, AnimationBase.initE, h, Except.map]

/-- C7 amended witness: the amended theorem applied to the name `"warp"`. -/
theorem unknown_easing_fails_at_attach_witness :
    "warp" ∉ AnimationAlpha.names ∧
    ∃ s, Animation.init { f := some "warp" } = .ok s ∧
      Animation.setWidgetE s false = .error .attributeError :=
  ⟨by decide, unknown_easing_fails_at_attach "warp" (by decide)⟩

/-! ## Leaf world: one spec, one widget, one scalar float property

The scenario world for the leaf claims: a plain `Animation` spec holding
at most one per-target instance (`self.children[widget]`), a widget with
a single scalar float property, the clock's registration count for the
instance's `_next_frame` callback, and the event log.  The easing
function is the default `AnimationAlpha.linear` (no `f` /
`alpha_function` argument is passed in any of these claims), so
`self.alpha_function(self._progress, self) = self._progress`.  For a
float scalar, `_calculate_attribute_value` reduces to
`vstart * (1 - t) + vend * t` (bridging lemma `calcAttr_float`). -/

/-- Linear interpolation: the scalar branch of
`_calculate_attribute_value` on float values. -/
def lerp (a b t : Rat) : Rat := a * (1 - t) + b * t

/-- Bridge: on float scalars the embedded
`_calculate_attribute_value` is exactly `lerp`. -/
theorem calcAttr_float (a b t : Rat) :
    calcAttr (.float a) (.float b) t = some (.float (lerp a b t)) := by
  simp [calcAttr, PyVal.toRat?, castTo, lerp]

/-- Which `AnimationBase` subclass an instance belongs to. -/
inductive AKind where
  | absolute
  | delta
deriving DecidableEq, Repr

/-- Per-target instance state (`AbsoluteAnimationBase` /
`DeltaAnimationBase`) for a single scalar float property: the
`_prop_list` entry `(vstart, vend)`, the saved construction parameter
(`_saved_prop_list` for Delta; Absolute keeps an unused
`_initial_state`), `_frame_pointer`, `_progress`, `running` and the
`generate_event` flag. -/
structure LeafInst where
  kind : AKind
  duration : Rat
  vstart : Rat
  vend : Rat
  saved : Rat
  fp : Rat
  prog : Rat
  running : Bool
  genEvent : Bool
deriving DecidableEq, Repr

/-- Events observable in the leaf scenarios, in dispatch order:
the spec's `on_start` / `on_complete` events and the widget-addressed
`on_animation_complete` notification. -/
inductive LEv where
  | anim_on_start
  | anim_on_complete
  | widget_notify
deriving DecidableEq, Repr

/-- Leaf scenario world.  `sched` counts the live clock registrations of
the instance's `_next_frame` callback.  Modelled from the spec: the tick
service itself (`pymt.clock` is not under src): §6's
`schedule(callback, rate)` registers the callback, and per §4.2 the leaf
"unregisters from the tick service" by letting `_next_frame` return
`False`, upon which the service drops that registration. -/
structure LeafWorld where
  x : Rat
  inst : Option LeafInst
  sched : Nat
  log : List LEv
deriving DecidableEq, Repr

/-- Embedding of `Animation.set_widget` (lines 379-394) together with the
`AbsoluteAnimationBase.__init__` / `DeltaAnimationBase.__init__` property
snapshots (lines 228-249 and 257-279) for one scalar float property with
construction parameter `param`: Absolute stores `(cval, param)`, Delta
stores `(cval, cval + param)`.  Returns the method's boolean result. -/
def Animation.setWidget (kind : AKind) (dur param : Rat) (genEvent : Bool)
    (w : LeafWorld) : Bool × LeafWorld :=
  match w.inst with
  | some _ => (false, w)
  | none =>
    let i : LeafInst :=
      match kind with
      | .absolute =>
        { kind := .absolute, duration := dur, vstart := w.x, vend := param
          saved := param, fp := 0, prog := 0, running := false
          genEvent := genEvent }
      | .delta =>
        { kind := .delta, duration := dur, vstart := w.x
          vend := w.x + param, saved := param, fp := 0, prog := 0
          running := false, genEvent := genEvent }
    (true, { w with inst := some i })

/-- Embedding of `AnimationBase.start` (lines 153-157): when not running,
set `running` and register `_next_frame` with the clock. -/
def AnimationBase.start (w : LeafWorld) : LeafWorld :=
  match w.inst with
  | none => w
  | some i =>
    if i.running then w
    else { w with inst := some { i with running := true }
                  sched := w.sched + 1 }

/-- Embedding of `Animation.start` (lines 356-362): start the instance,
then dispatch the spec's `on_start`. -/
def Animation.start (w : LeafWorld) : LeafWorld :=
  let w' := AnimationBase.start w
  { w' with log := w'.log ++ [LEv.anim_on_start] }

/-- Embedding of `Animation.stop` (lines 364-370), the completion hook a
leaf instance calls through `self.animator.stop(self.widget)`: with
`generate_event` it dispatches the widget notification and the spec's
`on_complete`; otherwise it silently deletes the per-target instance
(`self._del_child(widget)`). -/
def Animation.stop (w : LeafWorld) : LeafWorld :=
  match w.inst with
  | none => w
  | some i =>
    if i.genEvent then
      { w with log := w.log ++ [LEv.widget_notify, LEv.anim_on_complete] }
    else
      { w with inst := none }

/-- Embedding of `AnimationBase.stop` (lines 159-167): guarded by
`running`; it clears `running` and calls the animator's stop hook.  It
does not touch the clock registration. -/
def AnimationBase.stop (w : LeafWorld) : LeafWorld :=
  match w.inst with
  | none => w
  | some i =>
    if i.running then
      Animation.stop { w with inst := some { i with running := false } }
    else w

/-- Embedding of `AnimationBase._next_frame(dt)` (lines 173-184) with the
default linear easing: while `_frame_pointer <= duration and running`,
advance the pointer, clamp the progress at `1.0`, interpolate the
property and return `True`; otherwise call `self.stop()` and return
`False` (which makes the clock drop this registration). -/
def AnimationBase.nextFrame (dt : Rat) (w : LeafWorld) : Bool × LeafWorld :=
  match w.inst with
  | none => (false, AnimationBase.stop w)
  | some i =>
    if i.fp ≤ i.duration ∧ i.running then
      let fp := i.fp + dt
      let prog0 := fp / i.duration
      let prog := if prog0 > 1 then 1 else prog0
      (true, { w with inst := some { i with fp := fp, prog := prog }
                      x := lerp i.vstart i.vend prog })
    else
      (false, AnimationBase.stop w)

/-- One clock tick delivered to the leaf world: if the callback is
registered, run `_next_frame` and drop the registration that returned
`False`. -/
def deliverTick (dt : Rat) (w : LeafWorld) : LeafWorld :=
  if w.sched = 0 then w
  else
    let r := AnimationBase.nextFrame dt w
    if r.1 then r.2 else { r.2 with sched := r.2.sched - 1 }

/-- A whole run: fold the delivered ticks over the world. -/
def runTicks (w : LeafWorld) (ts : List Rat) : LeafWorld :=
  ts.foldl (fun w dt => deliverTick dt w) w

/-- Embedding of `Animation.reset` / `DeltaAnimationBase.reset`
(lines 281-297) for one scalar float property: zero the pointers, clear
`running`, and rebuild `_prop_list` from the widget's *current* value and
the saved delta; `AbsoluteAnimationBase.reset` (lines 251-253) is a
no-op. -/
def Animation.reset (w : LeafWorld) : LeafWorld :=
  match w.inst with
  | none => w
  | some i =>
    match i.kind with
    | .absolute => w
    | .delta =>
      { w with inst := some { i with fp := 0, prog := 0, running := false
                                     vstart := w.x, vend := w.x + i.saved } }

/-- Concrete instance that has already been stopped (the state after a
completed 1-second absolute run of `x` from `0` to `100`). -/
def stoppedLeafInst : LeafInst :=
  { kind := .absolute, duration := 1, vstart := 0, vend := 100
    saved := 100, fp := 2, prog := 1, running := false, genEvent := true }

/-- Concrete already-stopped leaf world. -/
def stoppedLeafWorld : LeafWorld :=
  { x := 100, inst := some stoppedLeafInst, sched := 0
    log := [.anim_on_start, .widget_notify, .anim_on_complete] }

/-- C9: `stop()` is idempotent — on an instance that is not running,
`AnimationBase.stop` leaves the whole world (instance state, widget
property, clock registration, event log) unchanged and dispatches
nothing. -/
theorem stop_idempotent (w : LeafWorld) (i : LeafInst)
    (hi : w.inst = some i) (hr : i.running = false) :
    AnimationBase.stop w = w := by
  simp [AnimationBase.stop, hi, hr]

/-- C9 witness: a concrete already-stopped world is untouched by a second
`stop()`. -/
theorem stop_idempotent_witness :
    (stoppedLeafWorld.inst = some stoppedLeafInst ∧
      stoppedLeafInst.running = false) ∧
    AnimationBase.stop stoppedLeafWorld = stoppedLeafWorld :=
  ⟨⟨rfl, rfl⟩, stop_idempotent stoppedLeafWorld stoppedLeafInst rfl rfl⟩

/-- Concrete C2 scenario: attach an absolute 1-second animation of `x`
toward `100`, start it, deliver one `0.5 s` tick, then call `stop()` on
the instance. -/
def c2Stopped : LeafWorld :=
  AnimationBase.stop
    (deliverTick (1/2)
      (Animation.start
        (Animation.setWidget .absolute 1 100 true
          { x := 0, inst := none, sched := 0, log := [] }).2))

/-- C2 counterexample: after `stop()` returns, the instance's
`_next_frame` callback is *still* registered with the tick service
(`stop()` never calls any unschedule; the registration is only dropped
when the next tick's `_next_frame` returns `False`).  The claim's
"unregisters synchronously before `stop()` returns" fails. -/
theorem stop_leaves_callback_registered :
    c2Stopped.sched = 1 ∧ c2Stopped.inst.map LeafInst.running = some false := by
  norm_num [c2Stopped, Animation.setWidget, Animation.start,
    AnimationBase.start, deliverTick, AnimationBase.nextFrame,
    AnimationBase.stop, Animation.stop, lerp]

/-- C2 amended: `stop()` clears `running` without unregistering; the
callback stays registered until the next delivered tick, which performs
no property mutation, leaves the instance untouched, and is dropped by
the tick service (its `_next_frame` returns `False`).  In particular no
tick delivered after `stop()` returns can mutate the target through the
instance. -/
theorem tick_after_stop_harmless (w : LeafWorld) (i : LeafInst) (dt : Rat)
    (hi : w.inst = some i) (hr : i.running = false) :
    (deliverTick dt w).x = w.x ∧ (deliverTick dt w).inst = w.inst ∧
      (w.sched = 1 → (deliverTick dt w).sched = 0) := by
  by_cases h0 : w.sched = 0
  · simp [deliverTick, h0]
  · simp [deliverTick, h0, AnimationBase.nextFrame, hi, hr,
      AnimationBase.stop]
    omega

/-- C2 amended witness: the amended theorem applied to the concrete
stopped world of the counterexample scenario. -/
theorem tick_after_stop_harmless_witness :
    (deliverTick 1 c2Stopped).x = c2Stopped.x ∧
      (deliverTick 1 c2Stopped).inst = c2Stopped.inst ∧
      (c2Stopped.sched = 1 → (deliverTick 1 c2Stopped).sched = 0) :=
  tick_after_stop_harmless c2Stopped
    { kind := .absolute, duration := 1, vstart := 0, vend := 100
      saved := 100, fp := 1/2, prog := 1/2, running := false
      genEvent := true } 1
    (by norm_num [c2Stopped, Animation.setWidget, Animation.start,
      AnimationBase.start, deliverTick, AnimationBase.nextFrame,
      AnimationBase.stop, Animation.stop, lerp]) rfl

/-- Concrete C8 scenario: attach an absolute 1-second animation of `x`
toward `100` (with the given `generate_event` flag), start it, and
deliver 1-second ticks until the instance auto-stops and is dropped by
the tick service. -/
def c8Run (g : Bool) : LeafWorld :=
  runTicks
    (Animation.start
      (Animation.setWidget .absolute 1 100 g
        { x := 0, inst := none, sched := 0, log := [] }).2)
    [1, 1, 1]

/-- C8 counterexample: with the default `generate_event = True`, after
the run finishes the spec *still* holds the per-target instance
(`Animation.stop` only dispatches the events and never deletes the
child), so a later `set_widget` for the same widget returns `False`
instead of creating a fresh instance.  The run did finish: `x` reached
`100`, the completion events fired, and the clock registration was
dropped. -/
theorem finished_run_keeps_instance :
    (c8Run true).inst.isSome = true ∧
    (Animation.setWidget .absolute 1 100 true (c8Run true)).1 = false ∧
    (c8Run true).x = 100 ∧ (c8Run true).sched = 0 ∧
    (c8Run true).log = [.anim_on_start, .widget_notify, .anim_on_complete] := by
  norm_num [c8Run, runTicks, Animation.setWidget, Animation.start,
    AnimationBase.start, deliverTick, AnimationBase.nextFrame,
    AnimationBase.stop, Animation.stop, lerp]

/-- C8 amended: the per-target instance is destroyed at run end only when
the spec suppresses events (`generate_event = False`, the combinator
path): then `Animation.stop` deletes the child and a later attach of the
same spec to the same target creates a fresh instance (`set_widget`
returns `True`); with the default `generate_event = True` the instance is
retained and re-attach is rejected. -/
theorem finished_run_destroys_instance_only_without_event :
    ((c8Run false).inst = none ∧
      (Animation.setWidget .absolute 1 100 false (c8Run false)).1 = true) ∧
    ((c8Run true).inst.isSome = true ∧
      (Animation.setWidget .absolute 1 100 true (c8Run true)).1 = false) := by
  norm_num [c8Run, runTicks, Animation.setWidget, Animation.start,
    AnimationBase.start, deliverTick, AnimationBase.nextFrame,
    AnimationBase.stop, Animation.stop, lerp]

/-! ### A full delta run

Invariant of a started leaf run with (instance) duration `d`, end value
`ve` and saved delta `sv`, under the default linear easing: either the
run is still in flight (`running`, one clock registration, pointer below
the duration), or the pointer has crossed the duration and the property
already holds the end value, or the instance auto-stopped with the
property at the end value and the clock registration dropped. -/
def LeafRunInv (d ve sv : Rat) (w : LeafWorld) : Prop :=
  ∃ i, w.inst = some i ∧ i.kind = .delta ∧ i.duration = d ∧ i.vend = ve ∧
    i.saved = sv ∧ i.genEvent = true ∧
    ((i.running = true ∧ w.sched = 1 ∧ i.fp ≤ d ∧ (i.fp = d → w.x = ve)) ∨
     (i.running = true ∧ w.sched = 1 ∧ d < i.fp ∧ w.x = ve) ∨
     (i.running = false ∧ w.sched = 0 ∧ w.x = ve))

/-- Interpolating to progress `1` lands exactly on the end value. -/
theorem lerp_one (a b : Rat) : lerp a b 1 = b := by
  unfold lerp
  ring

/-- Characterization: a tick delivered to a registered running instance
whose pointer has not passed the duration advances the pointer and
interpolates. -/
theorem deliverTick_run (w : LeafWorld) (i : LeafInst) (dt : Rat)
    (hi : w.inst = some i) (hs : w.sched = 1) (hr : i.running = true)
    (hfp : i.fp ≤ i.duration) :
    deliverTick dt w =
      { w with
        inst := some { i with fp := i.fp + dt
                              prog := if (i.fp + dt) / i.duration > 1 then 1
                                      else (i.fp + dt) / i.duration }
        x := lerp i.vstart i.vend
              (if (i.fp + dt) / i.duration > 1 then 1
               else (i.fp + dt) / i.duration) } := by
  simp [deliverTick, AnimationBase.nextFrame, hi, hs, hr, hfp]

/-- Characterization: a tick delivered to a registered running instance
whose pointer has passed the duration stops it, fires the completion
events, and drops the clock registration. -/
theorem deliverTick_finish (w : LeafWorld) (i : LeafInst) (dt : Rat)
    (hi : w.inst = some i) (hs : w.sched = 1) (hr : i.running = true)
    (hfp : ¬ i.fp ≤ i.duration) (hge : i.genEvent = true) :
    deliverTick dt w =
      { w with inst := some { i with running := false }
               sched := 0
               log := w.log ++ [LEv.widget_notify, LEv.anim_on_complete] } := by
  simp [deliverTick, AnimationBase.nextFrame, hi, hs, hr, hfp,
    AnimationBase.stop, Animation.stop, hge]

/-- Characterization: a tick is not delivered once the registration is
gone. -/
theorem deliverTick_idle (w : LeafWorld) (dt : Rat) (hs : w.sched = 0) :
    deliverTick dt w = w := by
  simp [deliverTick, hs]

/-- One delivered tick with a nonnegative `dt` preserves the run
invariant. -/
theorem LeafRunInv_step (d ve sv dt : Rat) (hd : 0 < d)
    (w : LeafWorld) (h : LeafRunInv d ve sv w) :
    LeafRunInv d ve sv (deliverTick dt w) := by
  obtain ⟨i, hi, hk, hdur, hve, hsv, hge, hcase⟩ := h
  rcases hcase with ⟨hr, hs, hfp, hxd⟩ | ⟨hr, hs, hfp, hx⟩ | ⟨hr, hs, hx⟩
  · -- in flight, pointer not yet past the duration
    rw [deliverTick_run w i dt hi hs hr (hdur ▸ hfp)]
    rcases lt_trichotomy (i.fp + dt) d with hlt | heq | hgt
    · exact ⟨_, rfl, hk, hdur, hve, hsv, hge,
        Or.inl ⟨hr, hs, hdur ▸ hlt.le, fun hc => absurd (hdur ▸ hc) hlt.ne⟩⟩
    · have hprog : (i.fp + dt) / i.duration = 1 := by
        rw [hdur, heq, div_self hd.ne']
      refine ⟨_, rfl, hk, hdur, hve, hsv, hge, Or.inl ⟨hr, hs, ?_, ?_⟩⟩
      · rw [hdur, heq]
      · intro _
        simp only [hprog, gt_iff_lt, lt_irrefl, if_false, if_neg]
        rw [lerp_one, hve]
    · have hprog : 1 < (i.fp + dt) / i.duration := by
        rw [hdur]
        exact (one_lt_div hd).mpr hgt
      refine ⟨_, rfl, hk, hdur, hve, hsv, hge,
        Or.inr (Or.inl ⟨hr, hs, hdur ▸ hgt, ?_⟩)⟩
      simp only [gt_iff_lt, hprog, if_pos]
      rw [lerp_one, hve]
  · -- pointer past the duration: the next tick auto-stops the instance
    have hcond : ¬ i.fp ≤ i.duration := by
      rw [hdur]
      exact not_le.mpr hfp
    rw [deliverTick_finish w i dt hi hs hr hcond hge]
    exact ⟨_, rfl, hk, hdur, hve, hsv, hge, Or.inr (Or.inr ⟨rfl, rfl, hx⟩)⟩
  · -- auto-stopped: unregistered, nothing more happens
    rw [deliverTick_idle w dt hs]
    exact ⟨i, hi, hk, hdur, hve, hsv, hge, Or.inr (Or.inr ⟨hr, hs, hx⟩)⟩

/-- The run invariant is preserved by any list of delivered ticks. -/
theorem LeafRunInv_run (d ve sv : Rat) (hd : 0 < d) (ts : List Rat)
    (w : LeafWorld) (h : LeafRunInv d ve sv w) :
    LeafRunInv d ve sv (runTicks w ts) := by
  induction ts generalizing w with
  | nil => exact h
  | cons t ts ih =>
    rw [runTicks, List.foldl_cons]
    exact ih _ (LeafRunInv_step d ve sv t hd w h)

/-- Fresh widget world whose scalar property starts at `S`. -/
def leafWorld0 (S : Rat) : LeafWorld :=
  { x := S, inst := none, sched := 0, log := [] }

/-- Attach a Delta leaf with duration `d` and configured delta `dlt` to a
widget whose property starts at `S`, and start it. -/
def deltaStart (S dlt d : Rat) : LeafWorld :=
  Animation.start (Animation.setWidget .delta d dlt true (leafWorld0 S)).2

/-- The freshly started delta world satisfies the run invariant with end
value `S + dlt`. -/
theorem deltaStart_inv (S dlt d : Rat) (hd : 0 < d) :
    LeafRunInv d (S + dlt) dlt (deltaStart S dlt d) := by
  refine ⟨{ kind := .delta, duration := d, vstart := S, vend := S + dlt
            saved := dlt, fp := 0, prog := 0, running := true
            genEvent := true }, ?_, rfl, rfl, rfl, rfl, rfl,
    Or.inl ⟨rfl, ?_, hd.le, fun hc => absurd hc hd.ne⟩⟩ <;>
  simp [deltaStart, leafWorld0, Animation.setWidget, Animation.start,
    AnimationBase.start]

/-- C3: a Delta leaf on a scalar property starting at `S` with configured
delta `dlt`, under the default linear easing.  After one full run — ticks
delivered until the tick service drops the callback, which requires the
accumulated ticks to reach the duration — the property equals `S + dlt`
exactly; after a `reset()` and a second full run it equals
`(S + dlt) + dlt` exactly. -/
theorem delta_two_full_runs (S dlt d : Rat) (hd : 0 < d)
    (ts1 ts2 : List Rat)
    (hfin1 : (runTicks (deltaStart S dlt d) ts1).sched = 0)
    (hfin2 : (runTicks (Animation.start
      (Animation.reset (runTicks (deltaStart S dlt d) ts1))) ts2).sched = 0) :
    (runTicks (deltaStart S dlt d) ts1).x = S + dlt ∧
    (runTicks (Animation.start
      (Animation.reset (runTicks (deltaStart S dlt d) ts1))) ts2).x =
      (S + dlt) + dlt := by
  have inv1 := LeafRunInv_run d (S + dlt) dlt hd ts1 _ (deltaStart_inv S dlt d hd)
  set w1 := runTicks (deltaStart S dlt d) ts1 with hw1
  obtain ⟨i, hi, hk, hdur, hve, hsv, hge, hcase⟩ := inv1
  rcases hcase with ⟨_, hs, _, _⟩ | ⟨_, hs, _, _⟩ | ⟨hr, hs, hx⟩
  · omega
  · omega
  · refine ⟨hx, ?_⟩
    have hstart : Animation.start (Animation.reset w1) =
        { w1 with
          inst := some { i with fp := 0, prog := 0, running := true
                                vstart := w1.x, vend := w1.x + i.saved }
          sched := w1.sched + 1
          log := w1.log ++ [LEv.anim_on_start] } := by
      simp [Animation.reset, hi, hk, Animation.start, AnimationBase.start]
    have inv2 : LeafRunInv d ((S + dlt) + dlt) dlt
        (Animation.start (Animation.reset w1)) := by
      rw [hstart]
      exact ⟨_, rfl, hk, hdur, by simp [hx, hsv], hsv, hge,
        Or.inl ⟨rfl, by show w1.sched + 1 = 1; omega, hd.le,
          fun hc => absurd hc hd.ne⟩⟩
    have inv2r := LeafRunInv_run d ((S + dlt) + dlt) dlt hd ts2 _ inv2
    obtain ⟨j, hj, _, _, _, _, _, hcase2⟩ := inv2r
    rcases hcase2 with ⟨_, hs2, _, _⟩ | ⟨_, hs2, _, _⟩ | ⟨_, _, hx2⟩
    · omega
    · omega
    · exact hx2

/-- C3 witness: `S = 0`, `dlt = 5`, duration `1`, three 1-second ticks
per run: after the first full run `x = 5`, after `reset()` and a second
full run `x = 10`. -/
theorem delta_two_full_runs_witness :
    (runTicks (deltaStart 0 5 1) [1, 1, 1]).x = 0 + 5 ∧
    (runTicks (Animation.start
      (Animation.reset (runTicks (deltaStart 0 5 1) [1, 1, 1]))) [1, 1, 1]).x =
      (0 + 5) + 5 :=
  delta_two_full_runs 0 5 1 (by norm_num) [1, 1, 1] [1, 1, 1]
    (by norm_num [deltaStart, leafWorld0, Animation.setWidget,
      Animation.start, AnimationBase.start, runTicks, deliverTick,
      AnimationBase.nextFrame, AnimationBase.stop, Animation.stop, lerp])
    (by norm_num [deltaStart, leafWorld0, Animation.setWidget,
      Animation.start, AnimationBase.start, Animation.reset, runTicks,
      deliverTick, AnimationBase.nextFrame, AnimationBase.stop,
      Animation.stop, lerp])

/-! ## Sequence world: a two-child `SequenceAnimation` over two widgets

Scenario world for the sequence claims: a `SequenceAnimation` whose
`animations` list holds two child `Animation` specs, attached to up to
two widgets (`wa`, `wb`), each with two scalar float properties `x` and
`y`.  The sequence's `anim_counter` is — exactly as in the source — a
single field of the sequence object, not keyed by widget.  Child
instances are `AbsoluteAnimationBase` objects created by
`ComplexAnimation.set_widget` with `animator=self` (the sequence), so a
finishing child calls `SequenceAnimation.stop`. -/

/-- The two scalar properties of a widget. -/
inductive PN where
  | px
  | py
deriving DecidableEq, Repr

/-- The two widgets of the scenario. -/
inductive WI where
  | wa
  | wb
deriving DecidableEq, Repr

/-- Widget state: the two animated properties. -/
structure WSt where
  x : Rat
  y : Rat
deriving DecidableEq, Repr

/-- Read a property (`widget.__getattribute__`). -/
def WSt.get (w : WSt) : PN → Rat
  | .px => w.x
  | .py => w.y

/-- Write a property (`widget.__setattr__`). -/
def WSt.set (w : WSt) : PN → Rat → WSt
  | .px, v => { w with x := v }
  | .py, v => { w with y := v }

/-- Per-target child instance (`AbsoluteAnimationBase`) for one scalar
property. -/
structure SqInst where
  duration : Rat
  vstart : Rat
  vend : Rat
  fp : Rat
  prog : Rat
  running : Bool
  genEvent : Bool
deriving DecidableEq, Repr

/-- Events observable in the sequence scenarios, in dispatch order. -/
inductive SEv where
  | seq_on_start (w : WI)
  | child_on_start (i : Nat) (w : WI)
  | widget_notify (w : WI)
  | seq_on_complete (w : WI)
deriving DecidableEq, Repr

/-- Construction parameters of the two child `Animation` specs (which
property each animates, its target value, its duration) and the
sequence's `single_event` flag. -/
structure SeqParams where
  p0 : PN
  t0 : Rat
  d0 : Rat
  p1 : PN
  t1 : Rat
  d1 : Rat
  singleEvent : Bool

/-- Property animated by child `i` (`0` or `1`). -/
def SeqParams.prop (P : SeqParams) (i : Nat) : PN :=
  if i = 0 then P.p0 else P.p1

/-- Construction-time target value of child `i`. -/
def SeqParams.tgt (P : SeqParams) (i : Nat) : Rat :=
  if i = 0 then P.t0 else P.t1

/-- Duration of child `i`. -/
def SeqParams.dur (P : SeqParams) (i : Nat) : Rat :=
  if i = 0 then P.d0 else P.d1

/-- Sequence scenario world: the two widgets, the sequence's single
`anim_counter` field, the four `children[widget]` slots (child spec ×
widget), the clock registration counts, and the event log. -/
structure SeqWorld where
  wA : WSt
  wB : WSt
  counter : Nat
  i0A : Option SqInst
  i0B : Option SqInst
  i1A : Option SqInst
  i1B : Option SqInst
  s0A : Nat
  s0B : Nat
  s1A : Nat
  s1B : Nat
  log : List SEv
deriving DecidableEq, Repr

/-- Widget lookup. -/
def SeqWorld.getW (s : SeqWorld) : WI → WSt
  | .wa => s.wA
  | .wb => s.wB

/-- Widget update. -/
def SeqWorld.setW (s : SeqWorld) : WI → WSt → SeqWorld
  | .wa, w => { s with wA := w }
  | .wb, w => { s with wB := w }

/-- Child-instance lookup (`animations[i].children[widget]`). -/
def SeqWorld.getInst (s : SeqWorld) (i : Nat) : WI → Option SqInst
  | .wa => if i = 0 then s.i0A else s.i1A
  | .wb => if i = 0 then s.i0B else s.i1B

/-- Child-instance update. -/
def SeqWorld.setInst (s : SeqWorld) (i : Nat) (wi : WI) (v : Option SqInst) :
    SeqWorld :=
  match wi with
  | .wa => if i = 0 then { s with i0A := v } else { s with i1A := v }
  | .wb => if i = 0 then { s with i0B := v } else { s with i1B := v }

/-- Clock registration count of child `i`'s instance for a widget. -/
def SeqWorld.getSched (s : SeqWorld) (i : Nat) : WI → Nat
  | .wa => if i = 0 then s.s0A else s.s1A
  | .wb => if i = 0 then s.s0B else s.s1B

/-- Clock registration update. -/
def SeqWorld.setSched (s : SeqWorld) (i : Nat) (wi : WI) (v : Nat) :
    SeqWorld :=
  match wi with
  | .wa => if i = 0 then { s with s0A := v } else { s with s1A := v }
  | .wb => if i = 0 then { s with s0B := v } else { s with s1B := v }

/-- Embedding of `ComplexAnimation.set_widget` (lines 450-464): reject if
a child instance for this widget is already running; otherwise build a
fresh `AbsoluteAnimationBase` per child from the child spec's params
(snapshotting the widget's current property value), with
`animator = self` (the sequence). -/
def seqSetWidget (P : SeqParams) (wi : WI) (s : SeqWorld) :
    Bool × SeqWorld :=
  let isRunning : Option SqInst → Bool
    | some i => i.running
    | none => false
  if isRunning (s.getInst 0 wi) || isRunning (s.getInst 1 wi) then
    (false, s)
  else
    let mk (i : Nat) : SqInst :=
      { duration := P.dur i, vstart := (s.getW wi).get (P.prop i)
        vend := P.tgt i, fp := 0, prog := 0, running := false
        genEvent := true }
    (true, (s.setInst 0 wi (some (mk 0))).setInst 1 wi (some (mk 1)))

/-- Embedding of child `Animation.start` (lines 356-362): start the
instance (`AnimationBase.start`, registering `_next_frame` with the
clock), then dispatch the child spec's `on_start`. -/
def childStart (i : Nat) (wi : WI) (s : SeqWorld) : SeqWorld :=
  let s :=
    match s.getInst i wi with
    | none => s
    | some inst =>
      if inst.running then s
      else
        (s.setInst i wi (some { inst with running := true })).setSched i wi
          (s.getSched i wi + 1)
  { s with log := s.log ++ [SEv.child_on_start i wi] }

/-- Embedding of `SequenceAnimation.start` (lines 480-491): dispatch
`on_start` when the counter is `0`; when the counter has reached the end
of the child list, reset it, dispatch `on_complete` (plus the aggregated
widget notification under `single_event`) and return; otherwise start
`animations[anim_counter]` for the widget. -/
def seqStart (P : SeqParams) (wi : WI) (s : SeqWorld) : SeqWorld :=
  let s :=
    if s.counter = 0 then { s with log := s.log ++ [SEv.seq_on_start wi] }
    else s
  if s.counter ≥ 2 then
    let s := { s with counter := 0, log := s.log ++ [SEv.seq_on_complete wi] }
    if P.singleEvent then { s with log := s.log ++ [SEv.widget_notify wi] }
    else s
  else
    childStart s.counter wi s

/-- Embedding of `Animation._repopulate_attrib` /
`AnimationBase._repopulate_attrib` (lines 200-224) for one scalar
property: the start value is re-snapshotted from the widget's *current*
value, the end value is kept. -/
def repopulate (P : SeqParams) (i : Nat) (wi : WI) (s : SeqWorld) :
    SeqWorld :=
  match s.getInst i wi with
  | none => s
  | some inst =>
    s.setInst i wi (some { inst with vstart := (s.getW wi).get (P.prop i) })

/-- Embedding of `SequenceAnimation.stop` (lines 493-501), the completion
hook of a finishing child: forward the per-child widget notification
(unless suppressed by `single_event`), advance the shared
`anim_counter`, re-snapshot the next child's start values from the
widget's live state if one remains, and recurse into `start`. -/
def seqStop (P : SeqParams) (wi : WI) (s : SeqWorld) : SeqWorld :=
  let ge :=
    match s.getInst s.counter wi with
    | some inst => inst.genEvent
    | none => false
  let s :=
    if ge && !P.singleEvent then
      { s with log := s.log ++ [SEv.widget_notify wi] }
    else s
  let s := { s with counter := s.counter + 1 }
  let s := if s.counter < 2 then repopulate P s.counter wi s else s
  seqStart P wi s

/-- Embedding of `AnimationBase._next_frame` (lines 173-184) for child
`i`'s instance on widget `wi`, default linear easing; on the stop path
`AnimationBase.stop` clears `running` and calls
`self.animator.stop(self.widget)`, i.e. `SequenceAnimation.stop`. -/
def seqNextFrame (P : SeqParams) (i : Nat) (wi : WI) (dt : Rat)
    (s : SeqWorld) : Bool × SeqWorld :=
  match s.getInst i wi with
  | none => (false, s)
  | some inst =>
    if inst.fp ≤ inst.duration ∧ inst.running then
      let fp := inst.fp + dt
      let prog0 := fp / inst.duration
      let prog := if prog0 > 1 then 1 else prog0
      let s := s.setInst i wi (some { inst with fp := fp, prog := prog })
      let s := s.setW wi
        ((s.getW wi).set (P.prop i) (lerp inst.vstart inst.vend prog))
      (true, s)
    else
      if inst.running then
        (false, seqStop P wi (s.setInst i wi (some { inst with running := false })))
      else (false, s)

/-- Deliver one tick to child `i`'s registered callback for widget `wi`,
dropping the registration when `_next_frame` returns `False`. -/
def seqDeliver (P : SeqParams) (i : Nat) (wi : WI) (dt : Rat)
    (s : SeqWorld) : SeqWorld :=
  if s.getSched i wi = 0 then s
  else
    let r := seqNextFrame P i wi dt s
    if r.1 then r.2
    else r.2.setSched i wi (r.2.getSched i wi - 1)

/-- One clock tick over the sequence world: deliver `dt` to every
callback that was registered when the tick started (callbacks scheduled
during the tick first fire on the next tick). -/
def seqTick (P : SeqParams) (dt : Rat) (s : SeqWorld) : SeqWorld :=
  let b0A := s.s0A ≠ 0
  let b0B := s.s0B ≠ 0
  let b1A := s.s1A ≠ 0
  let b1B := s.s1B ≠ 0
  let s := if b0A then seqDeliver P 0 .wa dt s else s
  let s := if b0B then seqDeliver P 0 .wb dt s else s
  let s := if b1A then seqDeliver P 1 .wa dt s else s
  if b1B then seqDeliver P 1 .wb dt s else s

/-- A whole sequence run: fold the delivered ticks over the world. -/
def seqRun (P : SeqParams) (s : SeqWorld) (ts : List Rat) : SeqWorld :=
  ts.foldl (fun s dt => seqTick P dt s) s

/-- Initial sequence world: both widgets at `x = 0`, `y = 0`, nothing
attached. -/
def seqW0 : SeqWorld :=
  { wA := { x := 0, y := 0 }, wB := { x := 0, y := 0 }, counter := 0
    i0A := none, i0B := none, i1A := none, i1B := none
    s0A := 0, s0B := 0, s1A := 0, s1B := 0, log := [] }

/-- C4 scenario parameters: a sequence of two 1-second absolute children,
`x → 100` then `x → 200`, default events. -/
def seqP4 : SeqParams :=
  { p0 := .px, t0 := 100, d0 := 1, p1 := .px, t1 := 200, d1 := 1
    singleEvent := false }

/-- C4 scenario: attach the sequence to widget A, start it, and deliver
1-second ticks until both children have finished and the sequence has
completed. -/
def c4Run : SeqWorld :=
  seqRun seqP4 (seqStart seqP4 .wa (seqSetWidget seqP4 .wa seqW0).2)
    [1, 1, 1, 1, 1, 1]

set_option maxHeartbeats 3200000 in
/-- C4: running the two-child sequence (`x → 100` then `x → 200`, one
second each) to completion dispatches exactly two per-child completion
notifications, in child order — the first child's notification strictly
precedes the second child's `on_start` in the log — the final value of
`x` is exactly `200`, and the second child's start value was
re-snapshotted from the live widget state (`vstart = 100`, not the
construction-time `0`). -/
theorem sequence_two_children_complete_in_order :
    c4Run.log =
      [.seq_on_start .wa, .child_on_start 0 .wa, .widget_notify .wa,
       .child_on_start 1 .wa, .widget_notify .wa, .seq_on_complete .wa] ∧
    c4Run.wA.x = 200 ∧ c4Run.i1A.map SqInst.vstart = some 100 := by
  norm_num [c4Run, seqP4, seqW0, seqRun, seqTick, seqDeliver, seqNextFrame,
    seqStop, seqStart, childStart, repopulate, seqSetWidget,
    SeqWorld.getInst, SeqWorld.setInst, SeqWorld.getSched,
    SeqWorld.setSched, SeqWorld.getW, SeqWorld.setW, WSt.get, WSt.set,
    SeqParams.prop, SeqParams.tgt, SeqParams.dur, lerp]

/-- C1 scenario parameters: a sequence of two 1-second absolute children
on distinct properties, `x → 100` then `y → 200`. -/
def seqP1 : SeqParams :=
  { p0 := .px, t0 := 100, d0 := 1, p1 := .py, t1 := 200, d1 := 1
    singleEvent := false }

/-- C1 scenario: one sequence spec attached to widget A and widget B,
both started at `t = 0`, then three 1-second ticks. -/
def c1Run : SeqWorld :=
  seqRun seqP1
    (seqStart seqP1 .wb
      (seqSetWidget seqP1 .wb
        (seqStart seqP1 .wa (seqSetWidget seqP1 .wa seqW0).2)).2)
    [1, 1, 1]

set_option maxHeartbeats 3200000 in
/-- C1: the `anim_counter` of a `SequenceAnimation` is one field on the
spec object shared by all targets, so two targets driven simultaneously
interfere.  In the concrete run both first children finish on the same
tick; widget A's completion advances the shared counter to `1`, widget
B's completion then advances it to `2`, so the sequence declares widget B
*complete* (`seq_on_complete wb` is dispatched) even though B's second
child never started: `B.y` is still `0` and B's child-1 instance never
ran, while A is still mid-run in child 1. -/
theorem sequence_counter_shared_across_targets :
    c1Run.log =
      [.seq_on_start .wa, .child_on_start 0 .wa,
       .seq_on_start .wb, .child_on_start 0 .wb,
       .widget_notify .wa, .child_on_start 1 .wa,
       .widget_notify .wb, .seq_on_complete .wb] ∧
    c1Run.wB.y = 0 ∧ c1Run.i1B.map SqInst.running = some false ∧
    c1Run.i1A.map SqInst.running = some true := by
  norm_num [c1Run, seqP1, seqW0, seqRun, seqTick, seqDeliver, seqNextFrame,
    seqStop, seqStart, childStart, repopulate, seqSetWidget,
    SeqWorld.getInst, SeqWorld.setInst, SeqWorld.getSched,
    SeqWorld.setSched, SeqWorld.getW, SeqWorld.setW, WSt.get, WSt.set,
    SeqParams.prop, SeqParams.tgt, SeqParams.dur, lerp]

/-! ## Repeat world: a `Repeat` controller wrapping a Delta leaf

Scenario world for the repeat claim: `Repeat(Animation(duration=1, x=+10,
type='delta'), times=3)` driving one widget.  The `Repeat` controller
subscribes to the wrapped spec's `on_complete` event
(`@self.animations.event` in `Repeat.__init__`, lines 584-586), so every
`Animation.stop` dispatch of `on_complete` synchronously runs
`Repeat.repeat`. -/

/-- Events observable in the repeat scenario, in dispatch order. -/
inductive REv where
  | rep_on_start
  | anim_on_start
  | widget_notify_anim
  | anim_on_complete
  | rep_on_repeat (n : Nat)
  | widget_notify_rep
  | rep_on_complete
deriving DecidableEq, Repr

/-- Repeat scenario world: the widget's property, the wrapped spec's
per-target instance (`children[widget]`), the clock registration count,
the controller's `_repeat_counter` and `_times`, and the event log. -/
structure RepWorld where
  x : Rat
  inst : Option LeafInst
  sched : Nat
  repCounter : Nat
  times : Int
  log : List REv
deriving DecidableEq, Repr

/-- Embedding of `Animation.set_widget` creating the wrapped spec's
`DeltaAnimationBase` instance, as invoked through `Repeat.set_widget`
(lines 588-591). -/
def repSetWidget (dur dlt : Rat) (w : RepWorld) : Bool × RepWorld :=
  match w.inst with
  | some _ => (false, w)
  | none =>
    let i : LeafInst :=
      { kind := .delta, duration := dur, vstart := w.x
        vend := w.x + dlt, saved := dlt, fp := 0, prog := 0
        running := false, genEvent := true }
    (true, { w with inst := some i })

/-- Embedding of `AnimationBase.start` in the repeat world. -/
def RepWorld.instStart (w : RepWorld) : RepWorld :=
  match w.inst with
  | none => w
  | some i =>
    if i.running then w
    else { w with inst := some { i with running := true }
                  sched := w.sched + 1 }

/-- Embedding of the wrapped `Animation.start` (instance start plus the
spec's `on_start`). -/
def RepWorld.animStart (w : RepWorld) : RepWorld :=
  let w' := w.instStart
  { w' with log := w'.log ++ [REv.anim_on_start] }

/-- Embedding of `Animation.reset` / `DeltaAnimationBase.reset` in the
repeat world: rebuild `(vstart, vend)` from the widget's current value
and the saved delta, zero the pointers, clear `running`. -/
def RepWorld.animReset (w : RepWorld) : RepWorld :=
  match w.inst with
  | none => w
  | some i =>
    match i.kind with
    | .absolute => w
    | .delta =>
      { w with inst := some { i with fp := 0, prog := 0, running := false
                                     vstart := w.x, vend := w.x + i.saved } }

/-- Embedding of `Repeat.start` (lines 593-597): dispatch `on_start` when
the repeat counter is `0`, then start the wrapped spec. -/
def repStart (w : RepWorld) : RepWorld :=
  let w :=
    if w.repCounter = 0 then { w with log := w.log ++ [REv.rep_on_start] }
    else w
  w.animStart

/-- Embedding of `Repeat.stop` (lines 599-605): widget notification, the
controller's `on_complete`, counter reset, and — for a wrapped leaf
spec — `Animation._del_child(widget)`. -/
def repStop (w : RepWorld) : RepWorld :=
  { w with log := w.log ++ [REv.widget_notify_rep, REv.rep_on_complete]
           repCounter := 0
           inst := none }

/-- Embedding of `Repeat.repeat` (lines 607-618): bump the counter,
dispatch `on_repeat` with the new count, then either reset-and-restart
the wrapped spec (`times == -1` or counter below the limit) or stop. -/
def repRepeat (w : RepWorld) : RepWorld :=
  let w := { w with repCounter := w.repCounter + 1 }
  let w := { w with log := w.log ++ [REv.rep_on_repeat w.repCounter] }
  if w.times = -1 then repStart w.animReset
  else if (w.repCounter : Int) < w.times then repStart w.animReset
  else repStop w

/-- Embedding of the wrapped `Animation.stop` (lines 364-370) in the
repeat world: with `generate_event` it dispatches the widget notification
and the spec's `on_complete` — which synchronously runs the subscribed
`Repeat.repeat` handler; otherwise it deletes the child. -/
def animStopR (w : RepWorld) : RepWorld :=
  match w.inst with
  | none => w
  | some i =>
    if i.genEvent then
      repRepeat
        { w with log := w.log ++ [REv.widget_notify_anim, REv.anim_on_complete] }
    else { w with inst := none }

/-- Embedding of `AnimationBase.stop` in the repeat world. -/
def instStopR (w : RepWorld) : RepWorld :=
  match w.inst with
  | none => w
  | some i =>
    if i.running then animStopR { w with inst := some { i with running := false } }
    else w

/-- Embedding of `AnimationBase._next_frame` in the repeat world, default
linear easing. -/
def nextFrameR (dt : Rat) (w : RepWorld) : Bool × RepWorld :=
  match w.inst with
  | none => (false, instStopR w)
  | some i =>
    if i.fp ≤ i.duration ∧ i.running then
      let fp := i.fp + dt
      let prog0 := fp / i.duration
      let prog := if prog0 > 1 then 1 else prog0
      (true, { w with inst := some { i with fp := fp, prog := prog }
                      x := lerp i.vstart i.vend prog })
    else (false, instStopR w)

/-- One clock tick over the repeat world: a registration that returned
`False` is dropped, while a restart performed inside the callback chain
adds a fresh registration (`schedule_interval` in
`AnimationBase.start`). -/
def deliverTickR (dt : Rat) (w : RepWorld) : RepWorld :=
  if w.sched = 0 then w
  else
    let r := nextFrameR dt w
    if r.1 then r.2 else { r.2 with sched := r.2.sched - 1 }

/-- A whole repeat run: fold the delivered ticks over the world. -/
def repRun (w : RepWorld) (ts : List Rat) : RepWorld :=
  ts.foldl (fun w dt => deliverTickR dt w) w

/-- C5 scenario: `Repeat(Animation(duration=1, x=+10, type='delta'),
times=3)` attached to one widget, started, then six 2-second ticks
(three full runs of the wrapped spec: each run's first tick overshoots
the duration, clamping progress at `1`, and its second tick triggers the
completion chain). -/
def c5Run : RepWorld :=
  repRun
    (repStart
      (repSetWidget 1 10
        { x := 0, inst := none, sched := 0, repCounter := 0, times := 3
          log := [] }).2)
    [2, 2, 2, 2, 2, 2]

set_option maxHeartbeats 3200000 in
/-- C5: with `times = 3`, `on_repeat` fires exactly three times with
counts `1`, `2`, `3`, and the controller's `on_complete` fires exactly
once, strictly after the third `on_repeat` (the log is exact, so no other
`rep_on_repeat` or `rep_on_complete` occurrences exist).  The widget's
property ends at `30` after the three delta runs and the per-target state
is detached. -/
theorem repeat_three_times_event_order :
    c5Run.log =
      [.rep_on_start, .anim_on_start,
       .widget_notify_anim, .anim_on_complete, .rep_on_repeat 1,
       .anim_on_start,
       .widget_notify_anim, .anim_on_complete, .rep_on_repeat 2,
       .anim_on_start,
       .widget_notify_anim, .anim_on_complete, .rep_on_repeat 3,
       .widget_notify_rep, .rep_on_complete] ∧
    c5Run.x = 30 ∧ c5Run.inst = none ∧ c5Run.sched = 0 := by
  norm_num [c5Run, repRun, deliverTickR, nextFrameR, instStopR, animStopR,
    repRepeat, repStop, repStart, RepWorld.animStart, RepWorld.animReset,
    RepWorld.instStart, repSetWidget, lerp]

end Pymt
